import Mathlib

/-!
Verification development for the PostgreSQL controller
(`src/postgres_contoller.py`).

The source is a single class `PostgresController` wrapping a psycopg2
connection: lazy connect / reconnect bookkeeping (`_connect`,
`_connection_is_closed`, `_check_and_reconnect`), two read operations
(`select`, `select_with_columns`), a write operation (`execute`), a batched
dataframe insert (`insert_dataframe`) and a JSON serialization helper
(`cast_dict_to_json`).

Shallow embedding choices:
* The external driver (psycopg2) is modelled by an `Env` value that fixes
  the outcome of each external call: whether `psycopg2.connect` succeeds,
  what `cursor.execute` + `cursor.description` + `cursor.fetchall` yield
  for a statement, and whether `execute_values` succeeds.  Wall-clock
  durations that appear in log lines are likewise supplied by `Env`.
* Each operation returns `(result, post-state, event trace)`.  The trace
  records connection-open attempts, statement submissions, log lines, and
  the commit/rollback emitted by the psycopg2 connection context manager
  (`with self.conn` commits on normal exit and rolls back on an exception,
  per the psycopg2 documentation).
* Python exceptions become `Except DbError`; a raised error still leaves
  the mutated object state behind, so every operation returns its
  post-state even on the error path, exactly as attribute mutations on
  `self` survive a raised exception in Python.
-/

/-- A cell value of a dataframe / result row.  The element type is opaque to
the controller; integers, strings and NULL suffice for every claim. -/
inductive Val where
  | null
  | int (n : Int)
  | str (s : String)
deriving DecidableEq

/-- The live psycopg2 connection object, reduced to the one attribute the
source reads: `conn.closed` (0 means open, nonzero means closed/broken). -/
structure ConnHandle where
  closed : Nat
deriving DecidableEq

/-- `host` may be a string or an int in the source (`Union[str, int]`). -/
inductive HostVal where
  | str (s : String)
  | int (n : Int)
deriving DecidableEq

/-- The mutable state of a `PostgresController` instance: the constructor
arguments stored by `__init__` plus `conn`, `is_reconnect` and
`reconnect_number`. -/
structure PostgresController where
  host : HostVal
  port : Int
  user : String
  password : String
  database : String
  conn : Option ConnHandle
  is_reconnect : Bool
  reconnect_number : Nat
deriving DecidableEq

/-- `__init__`: stores the connection parameters and initialises
`conn = None`, `is_reconnect = False`, `reconnect_number = 0`. -/
def mkPostgresController (host : HostVal) (port : Int)
    (user password database : String) : PostgresController :=
  { host := host, port := port, user := user, password := password,
    database := database, conn := none, is_reconnect := false,
    reconnect_number := 0 }

/-- The error taxonomy of the spec: connection errors raised by
`psycopg2.connect`, query errors raised by `cursor.execute`, and insert
errors raised by `execute_values`.  The payload keeps the identity of the
driver error so that untranslated propagation is expressible. -/
inductive DbError where
  | connErr (msg : String)
  | queryErr (msg : String)
  | insertErr (msg : String)
deriving DecidableEq

/-- What `cursor.description` and `cursor.fetchall` yield after a
successful `cursor.execute`. -/
structure QueryResult where
  columns : List String
  rows : List (List Val)
deriving DecidableEq

/-- Observable external effects of one operation, in order of occurrence. -/
inductive Event where
  /-- one call to `psycopg2.connect` (counted whether it succeeds or not) -/
  | openAttempt
  /-- one `cursor.execute(q)` -/
  | execStmt (q : String)
  /-- one `execute_values(cursor, stmt, rows, page_size)` call -/
  | batchInsert (schema table stmt : String) (rows : List (List Val))
      (pageSize : Nat)
  /-- one `logger.warning(msg)` line -/
  | log (msg : String)
  /-- transaction committed by the connection context manager -/
  | commit
  /-- transaction rolled back by the connection context manager -/
  | rollback
deriving DecidableEq

/-- The external world: outcomes of each driver call, and the wall-clock
durations (in whole seconds) that the two log lines report. -/
structure Env where
  /-- `none`: `psycopg2.connect` succeeds; `some e`: it raises `e`. -/
  connectErr : Option DbError
  /-- outcome of `cursor.execute q` together with description/fetchall -/
  exec : String → Except DbError QueryResult
  /-- outcome of `execute_values` for a statement and its rows -/
  insert : String → List (List Val) → Except DbError Unit
  /-- `duration.seconds` for the insert log line -/
  insertSecs : Nat
  /-- `total_duration.seconds` for the final log line -/
  totalSecs : Nat

/-- `_connection_is_closed`: `self.conn is None or self.conn.closed != 0`. -/
def _connection_is_closed (s : PostgresController) : Bool :=
  match s.conn with
  | none => true
  | some c => c.closed != 0

/-- `_connect`: one call to `psycopg2.connect`.  On success the fresh open
handle is stored in `self.conn`; on failure the exception propagates and
`self.conn` keeps its previous value. -/
def _connect (env : Env) (s : PostgresController) :
    Except DbError Unit × PostgresController × List Event :=
  match env.connectErr with
  | none => (.ok (), { s with conn := some { closed := 0 } }, [.openAttempt])
  | some e => (.error e, s, [.openAttempt])

/-- `_check_and_reconnect`: if the connection is absent or closed, bump the
reconnect bookkeeping (`reconnect_number += 1` if `is_reconnect` already
holds, otherwise `is_reconnect = True`) and then call `_connect`. -/
def _check_and_reconnect (env : Env) (s : PostgresController) :
    Except DbError Unit × PostgresController × List Event :=
  if _connection_is_closed s then
    let s1 := if s.is_reconnect
      then { s with reconnect_number := s.reconnect_number + 1 }
      else { s with is_reconnect := true }
    _connect env s1
  else (.ok (), s, [])

/-- `select_with_columns`: reconnect check, then inside `with self.conn` /
`with conn.cursor()` execute the statement, read the column names from the
cursor description and fetch all rows.  Commit on success, roll back if the
execution raises. -/
def select_with_columns (env : Env) (query : String) (s : PostgresController) :
    Except DbError (List (List Val) × List String) × PostgresController ×
      List Event :=
  match _check_and_reconnect env s with
  | (.error e, s1, tr) => (.error e, s1, tr)
  | (.ok _, s1, tr) =>
    match env.exec query with
    | .ok res => (.ok (res.rows, res.columns), s1,
        tr ++ [.execStmt query, .commit])
    | .error e => (.error e, s1, tr ++ [.execStmt query, .rollback])

/-- `select`: `rows, _ = self.select_with_columns(query); return rows`. -/
def select (env : Env) (query : String) (s : PostgresController) :
    Except DbError (List (List Val)) × PostgresController × List Event :=
  match select_with_columns env query s with
  | (.ok rc, s1, tr) => (.ok rc.1, s1, tr)
  | (.error e, s1, tr) => (.error e, s1, tr)

/-- `execute`: reconnect check, then execute the statement inside the same
scoped transaction; nothing is fetched or returned. -/
def execute (env : Env) (query : String) (s : PostgresController) :
    Except DbError Unit × PostgresController × List Event :=
  match _check_and_reconnect env s with
  | (.error e, s1, tr) => (.error e, s1, tr)
  | (.ok _, s1, tr) =>
    match env.exec query with
    | .ok _ => (.ok (), s1, tr ++ [.execStmt query, .commit])
    | .error e => (.error e, s1, tr ++ [.execStmt query, .rollback])

/-- The tabular input of `insert_dataframe`: a pandas dataframe reduced to
its ordered column names and its rows (`df.values`, row-major). -/
structure DataFrame where
  columns : List String
  values : List (List Val)
deriving DecidableEq

/-- `_split_to_rows_columns`: `list(df.columns)` and
`[list(row) for row in df.values]`. -/
def _split_to_rows_columns (df : DataFrame) :
    List String × List (List Val) :=
  (df.columns, df.values)

/-- Python's `f"\x7bn:_d\x7d"` formatting of a natural number: decimal
digits grouped in threes from the right, separated by underscores.
`sepRev` works on the reversed digit list. -/
def sepRev : List Char → List Char
  | a :: b :: c :: d :: rest => a :: b :: c :: '_' :: sepRev (d :: rest)
  | l => l

/-- `fmtUnderscore 120000 = "120_000"`. -/
def fmtUnderscore (n : Nat) : String :=
  String.mk (sepRev (toString n).data.reverse).reverse

/-- Python's `str.upper()` (ASCII case mapping, character by character). -/
def strUpper (s : String) : String :=
  String.mk (s.data.map Char.toUpper)

/-- `insert_dataframe`: reconnect check, split the dataframe, build the one
INSERT statement with the column list joined by a comma and a space, submit
the rows through `execute_values` with `page_size=50000`, then emit the two
`logger.warning` lines and commit.  If `execute_values` raises, the scoped
transaction rolls back and the error propagates.  (In the source
`table_schema` defaults to `"public"`; the default is applied at the call
site here.) -/
def insert_dataframe (env : Env) (df : DataFrame) (table_name : String)
    (table_schema : String) (s : PostgresController) :
    Except DbError Unit × PostgresController × List Event :=
  match _check_and_reconnect env s with
  | (.error e, s1, tr) => (.error e, s1, tr)
  | (.ok _, s1, tr) =>
    let cr := _split_to_rows_columns df
    let columns := cr.1
    let rows := cr.2
    let query := "INSERT INTO " ++ table_schema ++ "." ++ table_name ++
      " (" ++ String.intercalate ", " columns ++ ") VALUES %s"
    match env.insert query rows with
    | .ok _ => (.ok (), s1,
        tr ++ [.batchInsert table_schema table_name query rows 50000,
          .log ("Data inserted in table: \x27" ++ strUpper table_name ++
            "\x27\n" ++ fmtUnderscore rows.length ++
            " rows inserted\nTime: " ++ toString env.insertSecs ++
            " seconds"),
          .log ("Pandas job is finished. Total time: " ++
            toString env.totalSecs ++ " seconds"),
          .commit])
    | .error e => (.error e, s1,
        tr ++ [.batchInsert table_schema table_name query rows 50000,
          .rollback])

/-- One public operation of the controller. -/
inductive Op where
  | select (q : String)
  | selectWithColumns (q : String)
  | execute (q : String)
  | insertDataframe (df : DataFrame) (table schema : String)

/-- Return value of an operation, heterogeneous over the four shapes. -/
inductive RetVal where
  | rows (r : List (List Val))
  | rowsCols (r : List (List Val)) (cols : List String)
  | unit
deriving DecidableEq

/-- Dispatch one public operation against a state. -/
def runOp (op : Op) (env : Env) (s : PostgresController) :
    Except DbError RetVal × PostgresController × List Event :=
  match op with
  | .select q =>
    match select env q s with
    | (.ok r, s1, tr) => (.ok (.rows r), s1, tr)
    | (.error e, s1, tr) => (.error e, s1, tr)
  | .selectWithColumns q =>
    match select_with_columns env q s with
    | (.ok rc, s1, tr) => (.ok (.rowsCols rc.1 rc.2), s1, tr)
    | (.error e, s1, tr) => (.error e, s1, tr)
  | .execute q =>
    match execute env q s with
    | (.ok _, s1, tr) => (.ok .unit, s1, tr)
    | (.error e, s1, tr) => (.error e, s1, tr)
  | .insertDataframe df table schema =>
    match insert_dataframe env df table schema s with
    | (.ok _, s1, tr) => (.ok .unit, s1, tr)
    | (.error e, s1, tr) => (.error e, s1, tr)

/-- Is an event a connection-open attempt? -/
def isOpenEvent : Event → Bool
  | .openAttempt => true
  | _ => false

/-- Number of connection-open attempts in a trace. -/
def opensIn (tr : List Event) : Nat := tr.countP isOpenEvent

/-- Is an event a commit? -/
def isCommitEvent : Event → Bool
  | .commit => true
  | _ => false

/-- Number of commits in a trace. -/
def commitsIn (tr : List Event) : Nat := tr.countP isCommitEvent

/-- The diagnostic log lines of a trace, in order. -/
def logsIn (tr : List Event) : List String :=
  tr.filterMap fun e => match e with
    | .log m => some m
    | _ => none

/-- Is an event a batched-insert submission? -/
def isBatchEvent : Event → Bool
  | .batchInsert _ _ _ _ _ => true
  | _ => false

/-- Number of batched-insert submissions in a trace. -/
def batchesIn (tr : List Event) : Nat := tr.countP isBatchEvent

/-- Did an event submit a statement to the database (a `cursor.execute`
or an `execute_values` call)? -/
def isStmtEvent : Event → Bool
  | .execStmt _ => true
  | .batchInsert _ _ _ _ _ => true
  | _ => false

/-- Number of statement submissions in a trace. -/
def stmtsIn (tr : List Event) : Nat := tr.countP isStmtEvent

/-!
Transactional interpretation of a trace.  `with self.conn` gives every
operation one scoped transaction: work done inside it becomes visible only
at the `commit` event; at a `rollback` it is discarded.  The database is
abstracted to the row count of each `schema.table` target, which is all the
rollback claim observes.
-/

/-- Abstract database: row count per `schema.table` name. -/
def Db : Type := String → Nat

/-- Apply a list of pending `(target, addedRows)` effects to the database. -/
def applyPending (db : Db) : List (String × Nat) → Db
  | [] => db
  | (t, k) :: rest =>
    applyPending (fun name => if name = t then db name + k else db name) rest

/-- Fold a trace over the database, buffering insert effects inside the
current transaction and materialising them only at `commit`. -/
def applyEventsAux (db : Db) (pending : List (String × Nat)) :
    List Event → Db
  | [] => db
  | .batchInsert schema table _ rows _ :: rest =>
    applyEventsAux db (pending ++ [(schema ++ "." ++ table, rows.length)]) rest
  | .commit :: rest => applyEventsAux (applyPending db pending) [] rest
  | .rollback :: rest => applyEventsAux db [] rest
  | .openAttempt :: rest => applyEventsAux db pending rest
  | .execStmt _ :: rest => applyEventsAux db pending rest
  | .log _ :: rest => applyEventsAux db pending rest

/-- The database after a trace, starting outside any transaction. -/
def applyEvents (db : Db) (tr : List Event) : Db := applyEventsAux db [] tr

/-- The error `e` is one the modelled driver itself produced: raised by
`psycopg2.connect`, by `cursor.execute`, or by `execute_values`.  This is
what "propagates untranslated" means against the `Env` model. -/
def envRaised (env : Env) (e : DbError) : Prop :=
  env.connectErr = some e ∨ (∃ q, env.exec q = .error e) ∨
    ∃ q rows, env.insert q rows = .error e

/-!
Reachable states.  A run starts from a freshly constructed controller and
interleaves public operations (each against an arbitrary environment) with
peer-side closures of the current handle (`conn.closed` becomes nonzero).
The `Nat` index accumulates the total number of connection-open attempts
performed so far.
-/

/-- `Reachable s n`: state `s` arises from some run of the controller in
which `n` connection-open attempts have been performed. -/
inductive Reachable : PostgresController → Nat → Prop where
  | init (host : HostVal) (port : Int) (user password database : String) :
      Reachable (mkPostgresController host port user password database) 0
  | step (op : Op) (env : Env) {s : PostgresController} {n : Nat} :
      Reachable s n →
      Reachable (runOp op env s).2.1 (n + opensIn (runOp op env s).2.2)
  | peerClose (k : Nat) {s : PostgresController} {n : Nat} :
      Reachable s n →
      Reachable { s with conn := s.conn.map fun _ => { closed := k + 1 } } n

/-!
JSON serialization helper (`cast_dict_to_json`), i.e.
`json.dumps(dictionary, ensure_ascii=False)`.

The value domain is the Python values the helper is documented for:
`None`, booleans, integers, floats, strings, lists and string-keyed dicts
(non-string dict keys do not occur in the documented usage).
`PyList`/`PyDict` are spelled out as mutual inductives so that all
recursions are structural and evaluate in the kernel.

Floats: `json.dumps` (default `allow_nan=True`) special-cases the three
non-finite values, emitting the bare literals `NaN`, `Infinity` and
`-Infinity`, and renders every finite double via `repr`.  A finite double
is embedded as the textual shape of its `repr` — CPython always emits
`[-]int[.digits][e±digits]` with the integer part `0` or starting with a
nonzero digit; which particular shape a given double produces is
floating-point behavior outside this embedding and does not affect JSON
validity.
-/

/-- The integer part of CPython's finite-float `repr` (also RFC 8259
`int`): the single digit `0`, or a leading nonzero digit followed by
digits. -/
inductive IntPartText where
  | zero
  | pos (first : Fin 9) (rest : List (Fin 10))

/-- The characters of an integer part (`first` encodes digits 1..9). -/
def IntPartText.chars : IntPartText → List Char
  | .zero => ['0']
  | .pos f rest =>
    Nat.digitChar (f.val + 1) :: rest.map fun d => Nat.digitChar d.val

/-- The characters of the fractional part: nothing, or a point followed
by at least one digit. -/
def fracChars : List (Fin 10) → List Char
  | [] => []
  | ds => '.' :: ds.map fun d => Nat.digitChar d.val

/-- The characters of the exponent part: nothing, or `e`, an explicit
sign, and at least one digit, as CPython prints it. -/
def expChars : Option (Bool × Fin 10 × List (Fin 10)) → List Char
  | none => []
  | some (eneg, d0, ds) =>
    'e' :: (if eneg then '-' else '+') :: Nat.digitChar d0.val ::
      ds.map fun d => Nat.digitChar d.val

/-- Render a number of the shape CPython's finite-float `repr` emits:
optional minus, integer part, optional fraction, optional exponent.
Every such rendering is an RFC 8259 `number`. -/
def renderNumber (neg : Bool) (ip : IntPartText) (frac : List (Fin 10))
    (ex : Option (Bool × Fin 10 × List (Fin 10))) : String :=
  String.mk ((if neg then ['-'] else []) ++ ip.chars ++ fracChars frac ++
    expChars ex)

/-- A Python float as `json.dumps` distinguishes them: the three
non-finite values by identity, a finite double by the shape of its
`repr` text. -/
inductive PyFloat where
  | nan
  | inf
  | negInf
  | finite (neg : Bool) (ip : IntPartText) (frac : List (Fin 10))
      (ex : Option (Bool × Fin 10 × List (Fin 10)))

/-- CPython `json.encoder.floatstr` with the default `allow_nan=True`:
the bare literals `NaN` / `Infinity` / `-Infinity` for the non-finite
values, `repr(o)` for finite ones. -/
def floatstr : PyFloat → String
  | .nan => "NaN"
  | .inf => "Infinity"
  | .negInf => "-Infinity"
  | .finite neg ip frac ex => renderNumber neg ip frac ex

mutual

/-- A JSON-serializable Python value. -/
inductive PyVal where
  | null
  | bool (b : Bool)
  | int (n : Int)
  | float (f : PyFloat)
  | str (s : String)
  | list (xs : PyList)
  | dict (xs : PyDict)

/-- A Python list of serializable values. -/
inductive PyList where
  | nil
  | cons (head : PyVal) (tail : PyList)

/-- A Python dict with string keys and serializable values, in insertion
order. -/
inductive PyDict where
  | nil
  | cons (key : String) (val : PyVal) (tail : PyDict)

end

/-- Lower-case hexadecimal digit, as in CPython's `"\\u%04x"` fallback. -/
def hexDigit (n : Nat) : Char :=
  if n < 10 then Char.ofNat (48 + n) else Char.ofNat (87 + n)

/-- CPython's string-character escaping with `ensure_ascii=False`: only
the backslash, the double quote and control characters below U+0020 are
escaped (the named escapes where they exist, `\\u00xx` otherwise); every
other character — in particular every non-ASCII character — is emitted
literally. -/
def jsonEscapeChar (c : Char) : List Char :=
  if c = '"' then ['\\', '"']
  else if c = '\\' then ['\\', '\\']
  else if c = '\x08' then ['\\', 'b']
  else if c = '\x0c' then ['\\', 'f']
  else if c = '\n' then ['\\', 'n']
  else if c = '\r' then ['\\', 'r']
  else if c = '\t' then ['\\', 't']
  else if c.toNat < 0x20 then
    ['\\', 'u', '0', '0', hexDigit (c.toNat / 16), hexDigit (c.toNat % 16)]
  else [c]

/-- Escape a whole Python string for a JSON string literal body. -/
def jsonEscapeString (s : String) : String :=
  String.mk (s.data.map jsonEscapeChar).flatten

mutual

/-- `json.dumps(v, ensure_ascii=False)` with CPython's default separators
(a comma-space between items, a colon-space between key and value). -/
def dumps : PyVal → String
  | .null => "null"
  | .bool true => "true"
  | .bool false => "false"
  | .int n => toString n
  | .float f => floatstr f
  | .str s => "\"" ++ jsonEscapeString s ++ "\""
  | .list xs => "[" ++ String.intercalate ", " (dumpsList xs) ++ "]"
  | .dict xs => "\x7b" ++ String.intercalate ", " (dumpsDict xs) ++ "\x7d"

/-- Serialized items of a list. -/
def dumpsList : PyList → List String
  | .nil => []
  | .cons v t => dumps v :: dumpsList t

/-- Serialized `"key": value` items of a dict. -/
def dumpsDict : PyDict → List String
  | .nil => []
  | .cons k v t =>
    ("\"" ++ jsonEscapeString k ++ "\": " ++ dumps v) :: dumpsDict t

end

/-- `cast_dict_to_json`: `json.dumps(dictionary, ensure_ascii=False)`. -/
def cast_dict_to_json (dictionary : PyVal) : String := dumps dictionary

mutual

/-- Does a value contain no non-finite float (no NaN, no Infinity, no
-Infinity)?  On this domain `json.dumps` stays inside RFC 8259. -/
def finiteFloats : PyVal → Bool
  | .null => true
  | .bool _ => true
  | .int _ => true
  | .float .nan => false
  | .float .inf => false
  | .float .negInf => false
  | .float (.finite _ _ _ _) => true
  | .str _ => true
  | .list xs => finiteFloatsList xs
  | .dict xs => finiteFloatsDict xs

/-- `finiteFloats` over a list. -/
def finiteFloatsList : PyList → Bool
  | .nil => true
  | .cons v t => finiteFloats v && finiteFloatsList t

/-- `finiteFloats` over the values of a dict. -/
def finiteFloatsDict : PyDict → Bool
  | .nil => true
  | .cons _ v t => finiteFloats v && finiteFloatsDict t

end

/-- The `(escaped key, serialized value)` pairs of a dict, used to relate
`dumpsDict` to the JSON object grammar. -/
def dumpsDictParts : PyDict → List (String × String)
  | .nil => []
  | .cons k v t => (jsonEscapeString k, dumps v) :: dumpsDictParts t

/-- Is `c` a lower-case hexadecimal digit? -/
def isHexDigit (c : Char) : Bool :=
  decide ((48 ≤ c.toNat ∧ c.toNat ≤ 57) ∨ (97 ≤ c.toNat ∧ c.toNat ≤ 102))

/-- The single-character JSON escapes. -/
def simpleEscape (c : Char) : Bool :=
  c = '"' || c = '\\' || c = '/' || c = 'b' || c = 'f' || c = 'n' ||
    c = 'r' || c = 't'

/-- A character that may stand unescaped in a JSON string literal:
anything except the quote, the backslash and the control range. -/
def plainJsonChar (c : Char) : Bool :=
  decide (c ≠ '"' ∧ c ≠ '\\' ∧ 0x20 ≤ c.toNat)

mutual

/-- Does a character list form a valid JSON string literal body
(RFC 8259 `char*`)?  Escapes are a backslash followed by one of the named
escape characters or by `u` and four hex digits; everything else must be a
plain character. -/
def jsonStringBodyOk : List Char → Bool
  | [] => true
  | c :: rest =>
    if c = '\\' then jsonEscSeqOk rest
    else plainJsonChar c && jsonStringBodyOk rest

/-- What may follow a backslash in a JSON string literal body. -/
def jsonEscSeqOk : List Char → Bool
  | [] => false
  | e :: rest =>
    if e = 'u' then jsonHex4Ok rest
    else simpleEscape e && jsonStringBodyOk rest

/-- Four hex digits (the tail of a `\u` escape), then more body. -/
def jsonHex4Ok : List Char → Bool
  | a :: b :: c :: d :: rest =>
    isHexDigit a && isHexDigit b && isHexDigit c && isHexDigit d &&
      jsonStringBodyOk rest
  | _ => false

end

/-- Membership in a subgrammar of RFC 8259 JSON text: the productions for
literals, integers, numbers, strings, arrays and objects, with the
concrete whitespace used by the serializer (one space after each comma and
colon, which the JSON grammar permits).  Every string in `IsJson` is valid
JSON text. -/
inductive IsJson : String → Prop where
  | nullTok : IsJson "null"
  | trueTok : IsJson "true"
  | falseTok : IsJson "false"
  | intTok (n : Int) : IsJson (toString n)
  | numTok (neg : Bool) (ip : IntPartText) (frac : List (Fin 10))
      (ex : Option (Bool × Fin 10 × List (Fin 10))) :
      IsJson (renderNumber neg ip frac ex)
  | strTok (body : String) (h : jsonStringBodyOk body.data = true) :
      IsJson ("\"" ++ body ++ "\"")
  | arrTok (parts : List String) (h : ∀ p ∈ parts, IsJson p) :
      IsJson ("[" ++ String.intercalate ", " parts ++ "]")
  | objTok (parts : List (String × String))
      (hkeys : ∀ p ∈ parts, jsonStringBodyOk p.1.data = true)
      (hvals : ∀ p ∈ parts, IsJson p.2) :
      IsJson ("\x7b" ++ String.intercalate ", "
        (parts.map fun p => "\"" ++ p.1 ++ "\": " ++ p.2) ++ "\x7d")

/-!
Concrete instances used by the closed witness theorems.
-/

/-- An environment in which every driver call succeeds. -/
def envOk : Env :=
  { connectErr := none,
    exec := fun _ => .ok { columns := ["x"], rows := [[Val.int 1]] },
    insert := fun _ _ => .ok (),
    insertSecs := 0, totalSecs := 0 }

/-- An environment whose `execute_values` step raises an insert error. -/
def envInsFail : Env :=
  { envOk with insert := fun _ _ => .error (.insertErr "bad column") }

/-- An environment whose `psycopg2.connect` raises a connection error. -/
def envConnFail : Env :=
  { envOk with connectErr := some (.connErr "refused") }

/-- A freshly constructed controller. -/
def ctrlFresh : PostgresController :=
  mkPostgresController (.str "localhost") 5432 "u" "p" "db"

/-- A controller that has connected before and whose handle is gone. -/
def ctrlSeen : PostgresController :=
  { ctrlFresh with is_reconnect := true, reconnect_number := 3 }

/-- A small two-column dataframe. -/
def dfSmall : DataFrame :=
  { columns := ["a", "b"], values := [[Val.int 1, Val.str "x"]] }

/-- A one-column dataframe with 120000 rows. -/
def df120k : DataFrame :=
  { columns := ["a"], values := List.replicate 120000 [Val.int 1] }

/-- A database assigning every table a nonzero row count. -/
def db0 : Db := fun _ => 7

theorem opensIn_append (a b : List Event) :
    opensIn (a ++ b) = opensIn a + opensIn b := by
  simp [opensIn, List.countP_append]

theorem ccr_not_closed (env : Env) (s : PostgresController)
    (h : _connection_is_closed s = false) :
    _check_and_reconnect env s = (.ok (), s, []) := by
  simp [_check_and_reconnect, h]

theorem ccr_closed_err (env : Env) (s : PostgresController) (e : DbError)
    (h : _connection_is_closed s = true) (hc : env.connectErr = some e) :
    _check_and_reconnect env s =
      (.error e,
       if s.is_reconnect then
         { s with reconnect_number := s.reconnect_number + 1 }
       else { s with is_reconnect := true },
       [.openAttempt]) := by
  simp [_check_and_reconnect, _connect, h, hc]

theorem ccr_closed_ok (env : Env) (s : PostgresController)
    (h : _connection_is_closed s = true) (hc : env.connectErr = none) :
    _check_and_reconnect env s =
      (.ok (),
       { (if s.is_reconnect then
            { s with reconnect_number := s.reconnect_number + 1 }
          else { s with is_reconnect := true }) with
          conn := some { closed := 0 } },
       [.openAttempt]) := by
  simp [_check_and_reconnect, _connect, h, hc]

theorem ccr_trace (env : Env) (s : PostgresController) :
    (_check_and_reconnect env s).2.2 =
      if _connection_is_closed s then [Event.openAttempt] else [] := by
  rcases hcl : _connection_is_closed s <;>
    cases hc : env.connectErr <;>
    simp [_check_and_reconnect, _connect, hcl, hc]

theorem ccr_flag (env : Env) (s : PostgresController) :
    (_check_and_reconnect env s).2.1.is_reconnect =
      (s.is_reconnect || _connection_is_closed s) := by
  rcases hcl : _connection_is_closed s <;>
    cases hc : env.connectErr <;>
    rcases hfl : s.is_reconnect <;>
    simp [_check_and_reconnect, _connect, hcl, hc, hfl]

theorem ccr_count (env : Env) (s : PostgresController) :
    (_check_and_reconnect env s).2.1.reconnect_number =
      s.reconnect_number +
        (if s.is_reconnect && _connection_is_closed s then 1 else 0) := by
  rcases hcl : _connection_is_closed s <;>
    cases hc : env.connectErr <;>
    rcases hfl : s.is_reconnect <;>
    simp [_check_and_reconnect, _connect, hcl, hc, hfl]

theorem ccr_conn (env : Env) (s : PostgresController) :
    (_check_and_reconnect env s).2.1.conn =
      if _connection_is_closed s && env.connectErr.isNone then
        some { closed := 0 }
      else s.conn := by
  rcases hcl : _connection_is_closed s <;>
    cases hc : env.connectErr <;>
    rcases hfl : s.is_reconnect <;>
    simp [_check_and_reconnect, _connect, hcl, hc, hfl]

theorem ccr_err (env : Env) (s : PostgresController) (e : DbError) :
    (_check_and_reconnect env s).1 = .error e ↔
      (_connection_is_closed s = true ∧ env.connectErr = some e) := by
  rcases hcl : _connection_is_closed s <;>
    cases hc : env.connectErr <;>
    simp [_check_and_reconnect, _connect, hcl, hc]

theorem runOp_state (op : Op) (env : Env) (s : PostgresController) :
    (runOp op env s).2.1 = (_check_and_reconnect env s).2.1 := by
  rcases hc : _check_and_reconnect env s with ⟨r, s1, tr⟩
  cases op with
  | select q =>
    rcases he : env.exec q with res | e2 <;> cases r <;>
      simp [runOp, select, select_with_columns, hc, he]
  | selectWithColumns q =>
    rcases he : env.exec q with res | e2 <;> cases r <;>
      simp [runOp, select_with_columns, hc, he]
  | execute q =>
    rcases he : env.exec q with res | e2 <;> cases r <;>
      simp [runOp, execute, hc, he]
  | insertDataframe df table schema =>
    rcases he : env.insert ("INSERT INTO " ++ schema ++ "." ++ table ++
        " (" ++ String.intercalate ", " df.columns ++ ") VALUES %s")
        df.values with u | e2 <;> cases r <;>
      simp [runOp, insert_dataframe, _split_to_rows_columns, hc, he]

theorem runOp_trace (op : Op) (env : Env) (s : PostgresController) :
    ∃ body, (runOp op env s).2.2 = (_check_and_reconnect env s).2.2 ++ body ∧
      opensIn body = 0 := by
  rcases hc : _check_and_reconnect env s with ⟨r, s1, tr⟩
  cases op with
  | select q =>
    rcases he : env.exec q with res | e2 <;> cases r <;>
      simp [runOp, select, select_with_columns, hc, he, opensIn, isOpenEvent]
  | selectWithColumns q =>
    rcases he : env.exec q with res | e2 <;> cases r <;>
      simp [runOp, select_with_columns, hc, he, opensIn, isOpenEvent]
  | execute q =>
    rcases he : env.exec q with res | e2 <;> cases r <;>
      simp [runOp, execute, hc, he, opensIn, isOpenEvent]
  | insertDataframe df table schema =>
    rcases he : env.insert ("INSERT INTO " ++ schema ++ "." ++ table ++
        " (" ++ String.intercalate ", " df.columns ++ ") VALUES %s")
        df.values with u | e2 <;> cases r <;>
      simp [runOp, insert_dataframe, _split_to_rows_columns, hc, he,
        opensIn, isOpenEvent]

theorem runOp_err_ccr (op : Op) (env : Env) (s : PostgresController)
    (e : DbError) (s1 : PostgresController) (tr : List Event)
    (h : _check_and_reconnect env s = (.error e, s1, tr)) :
    runOp op env s = (.error e, s1, tr) := by
  cases op <;>
    simp [runOp, select, select_with_columns, execute, insert_dataframe, h]

theorem ccr_commits (env : Env) (s : PostgresController) :
    commitsIn (_check_and_reconnect env s).2.2 = 0 := by
  rw [ccr_trace]; split <;> simp [commitsIn, isCommitEvent]

theorem ccr_logs (env : Env) (s : PostgresController) :
    logsIn (_check_and_reconnect env s).2.2 = [] := by
  rw [ccr_trace]; split <;> simp [logsIn]

theorem ccr_batches (env : Env) (s : PostgresController) :
    batchesIn (_check_and_reconnect env s).2.2 = 0 := by
  rw [ccr_trace]; split <;> simp [batchesIn, isBatchEvent]

theorem ccr_opens_le_one (env : Env) (s : PostgresController) :
    opensIn (_check_and_reconnect env s).2.2 ≤ 1 := by
  rw [ccr_trace]; split <;> simp [opensIn, isOpenEvent]

theorem commitsIn_append (a b : List Event) :
    commitsIn (a ++ b) = commitsIn a + commitsIn b := by
  simp [commitsIn, List.countP_append]

theorem logsIn_append (a b : List Event) :
    logsIn (a ++ b) = logsIn a ++ logsIn b := by
  simp [logsIn, List.filterMap_append]

theorem batchesIn_append (a b : List Event) :
    batchesIn (a ++ b) = batchesIn a + batchesIn b := by
  simp [batchesIn, List.countP_append]

theorem runOp_err_origin (op : Op) (env : Env) (s : PostgresController)
    (e : DbError) (h : (runOp op env s).1 = .error e) :
    envRaised env e := by
  rcases hc : _check_and_reconnect env s with ⟨r, s1, tr⟩
  cases r with
  | error e2 =>
    have h2 := runOp_err_ccr op env s e2 s1 tr hc
    rw [h2] at h
    have h3 : e2 = e := by simpa using h
    subst h3
    have h4 : (_check_and_reconnect env s).1 = .error e2 := by rw [hc]
    exact Or.inl ((ccr_err env s e2).mp h4).2
  | ok u =>
    cases op with
    | select q =>
      rcases he : env.exec q with res | e2 <;>
        simp [runOp, select, select_with_columns, hc, he] at h
      exact Or.inr (Or.inl ⟨q, by rw [he, h]⟩)
    | selectWithColumns q =>
      rcases he : env.exec q with res | e2 <;>
        simp [runOp, select_with_columns, hc, he] at h
      exact Or.inr (Or.inl ⟨q, by rw [he, h]⟩)
    | execute q =>
      rcases he : env.exec q with res | e2 <;>
        simp [runOp, execute, hc, he] at h
      exact Or.inr (Or.inl ⟨q, by rw [he, h]⟩)
    | insertDataframe df table schema =>
      rcases he : env.insert ("INSERT INTO " ++ schema ++ "." ++ table ++
          " (" ++ String.intercalate ", " df.columns ++ ") VALUES %s")
          df.values with u2 | e2 <;>
        simp [runOp, insert_dataframe, _split_to_rows_columns, hc, he] at h
      exact Or.inr (Or.inr ⟨_, _, by rw [he, h]⟩)

theorem runOp_err_nocommit (op : Op) (env : Env) (s : PostgresController)
    (e : DbError) (h : (runOp op env s).1 = .error e) :
    commitsIn (runOp op env s).2.2 = 0 := by
  rcases hc : _check_and_reconnect env s with ⟨r, s1, tr⟩
  have htr : commitsIn tr = 0 := by
    have := ccr_commits env s; rw [hc] at this; exact this
  cases r with
  | error e2 =>
    have h2 := runOp_err_ccr op env s e2 s1 tr hc
    rw [h2]; exact htr
  | ok u =>
    cases op with
    | select q =>
      rcases he : env.exec q with res | e2 <;>
        simp [runOp, select, select_with_columns, hc, he] at h ⊢
      rw [commitsIn_append, htr]
      simp [commitsIn, isCommitEvent]
    | selectWithColumns q =>
      rcases he : env.exec q with res | e2 <;>
        simp [runOp, select_with_columns, hc, he] at h ⊢
      rw [commitsIn_append, htr]
      simp [commitsIn, isCommitEvent]
    | execute q =>
      rcases he : env.exec q with res | e2 <;>
        simp [runOp, execute, hc, he] at h ⊢
      rw [commitsIn_append, htr]
      simp [commitsIn, isCommitEvent]
    | insertDataframe df table schema =>
      rcases he : env.insert ("INSERT INTO " ++ schema ++ "." ++ table ++
          " (" ++ String.intercalate ", " df.columns ++ ") VALUES %s")
          df.values with u2 | e2 <;>
        simp [runOp, insert_dataframe, _split_to_rows_columns, hc, he] at h ⊢
      rw [commitsIn_append, htr]
      simp [commitsIn, isCommitEvent]

theorem applyEventsAux_no_commit (tr : List Event) :
    ∀ (db : Db) (pending : List (String × Nat)), commitsIn tr = 0 →
      applyEventsAux db pending tr = db := by
  induction tr with
  | nil => intro db pending _; rfl
  | cons e rest ih =>
    intro db pending h
    cases e with
    | commit => simp [commitsIn, List.countP_cons, isCommitEvent] at h
    | openAttempt =>
      simp only [applyEventsAux]
      exact ih db pending
        (by simpa [commitsIn, List.countP_cons, isCommitEvent] using h)
    | execStmt q =>
      simp only [applyEventsAux]
      exact ih db pending
        (by simpa [commitsIn, List.countP_cons, isCommitEvent] using h)
    | batchInsert sc t st rows p =>
      simp only [applyEventsAux]
      exact ih db _
        (by simpa [commitsIn, List.countP_cons, isCommitEvent] using h)
    | log m =>
      simp only [applyEventsAux]
      exact ih db pending
        (by simpa [commitsIn, List.countP_cons, isCommitEvent] using h)
    | rollback =>
      simp only [applyEventsAux]
      exact ih db []
        (by simpa [commitsIn, List.countP_cons, isCommitEvent] using h)

theorem applyEvents_no_commit (db : Db) (tr : List Event)
    (h : commitsIn tr = 0) : applyEvents db tr = db :=
  applyEventsAux_no_commit tr db [] h

/-- C1: from a fresh controller (no handle, `is_reconnect = False`,
`reconnect_number = 0`), the first call to any operation performs exactly
one connection-open attempt, sets `is_reconnect` to true and leaves
`reconnect_number` at 0. -/
theorem first_call_single_open_sets_flag (op : Op) (env : Env)
    (s : PostgresController) (h1 : s.conn = none)
    (h2 : s.is_reconnect = false) (h3 : s.reconnect_number = 0) :
    opensIn (runOp op env s).2.2 = 1 ∧
      (runOp op env s).2.1.is_reconnect = true ∧
      (runOp op env s).2.1.reconnect_number = 0 := by
  have hcl : _connection_is_closed s = true := by
    simp [_connection_is_closed, h1]
  obtain ⟨body, hb, hob⟩ := runOp_trace op env s
  refine ⟨?_, ?_, ?_⟩
  · rw [hb, opensIn_append, hob, ccr_trace, hcl]
    simp [opensIn, isOpenEvent]
  · rw [runOp_state, ccr_flag, hcl]
    simp
  · rw [runOp_state, ccr_count, hcl, h2, h3]
    simp

/-- C2: if the connection was established before (`is_reconnect = true`)
and is found closed, the next operation performs exactly one reconnect and
increments `reconnect_number` by exactly 1; if it is found open, no
open attempt happens and `reconnect_number` is unchanged. -/
theorem closed_connection_single_reconnect_increment (op : Op) (env : Env)
    (s : PostgresController) (hflag : s.is_reconnect = true) :
    (_connection_is_closed s = true →
      opensIn (runOp op env s).2.2 = 1 ∧
        (runOp op env s).2.1.reconnect_number = s.reconnect_number + 1) ∧
    (_connection_is_closed s = false →
      opensIn (runOp op env s).2.2 = 0 ∧
        (runOp op env s).2.1.reconnect_number = s.reconnect_number) := by
  obtain ⟨body, hb, hob⟩ := runOp_trace op env s
  constructor
  · intro hcl
    constructor
    · rw [hb, opensIn_append, hob, ccr_trace, hcl]
      simp [opensIn, isOpenEvent]
    · rw [runOp_state, ccr_count, hcl, hflag]
      simp
  · intro hcl
    constructor
    · rw [hb, opensIn_append, hob, ccr_trace, hcl]
      simp [opensIn]
    · rw [runOp_state, ccr_count, hcl]
      simp

/-- C3: every error raised during an operation surfaces to the caller as
the very error the driver raised (uncaught, untranslated), and on the
error path the scoped transaction contains no commit, so the database
state — in particular any table row count — is unchanged (all-or-nothing,
no partial insert). -/
theorem errors_propagate_untranslated_rollback (op : Op) (env : Env)
    (s : PostgresController) (db : Db) (e : DbError)
    (h : (runOp op env s).1 = .error e) :
    envRaised env e ∧ applyEvents db (runOp op env s).2.2 = db :=
  ⟨runOp_err_origin op env s e h,
    applyEvents_no_commit db _ (runOp_err_nocommit op env s e h)⟩

/-- C6: every operation makes at most one connection-open attempt (the
lazy check at the start); if that attempt itself fails, the driver's
connection error propagates, and the trace is the single open attempt —
no retry loop, no backoff, no re-attempt of the triggering statement. -/
theorem at_most_one_reconnect_attempt_no_retry (op : Op) (env : Env)
    (s : PostgresController) :
    opensIn (runOp op env s).2.2 ≤ 1 ∧
    (∀ e, _connection_is_closed s = true → env.connectErr = some e →
      (runOp op env s).1 = .error e ∧
        (runOp op env s).2.2 = [Event.openAttempt]) := by
  obtain ⟨body, hb, hob⟩ := runOp_trace op env s
  constructor
  · rw [hb, opensIn_append, hob]
    have := ccr_opens_le_one env s
    omega
  · intro e hcl hce
    have hc := ccr_closed_err env s e hcl hce
    have h2 := runOp_err_ccr op env s e _ _ hc
    rw [h2]
    exact ⟨rfl, rfl⟩

/-- C7: the controller holds at most one handle (`conn` is a single
option), and a new handle is opened only when the previous one is absent
or reports closed; after any operation the handle is either the old one or
a single fresh open handle obtained because the old one was absent or
closed. -/
theorem single_handle_invariant (op : Op) (env : Env)
    (s : PostgresController) :
    opensIn (runOp op env s).2.2 ≤ 1 ∧
    (Event.openAttempt ∈ (runOp op env s).2.2 →
      _connection_is_closed s = true) ∧
    ((runOp op env s).2.1.conn = s.conn ∨
      ((runOp op env s).2.1.conn = some { closed := 0 } ∧
        _connection_is_closed s = true)) := by
  obtain ⟨body, hb, hob⟩ := runOp_trace op env s
  refine ⟨?_, ?_, ?_⟩
  · rw [hb, opensIn_append, hob]
    have := ccr_opens_le_one env s
    omega
  · intro hmem
    rw [hb] at hmem
    rcases List.mem_append.mp hmem with hm | hm
    · rw [ccr_trace] at hm
      by_contra hcl
      simp [Bool.not_eq_true] at hcl
      rw [hcl] at hm
      simp at hm
    · have h5 := List.countP_eq_zero.mp hob Event.openAttempt hm
      simp [isOpenEvent] at h5
  · rw [runOp_state, ccr_conn]
    rcases hcl : _connection_is_closed s
    · simp
    · cases hce : env.connectErr <;> simp [hce]

/-- C8: `select` returns exactly the rows component of
`select_with_columns` (column names discarded), with identical post-state
and trace, for every statement, environment and state. -/
theorem select_refines_select_with_columns (env : Env) (q : String)
    (s : PostgresController) :
    (select env q s).1 = ((select_with_columns env q s).1).map Prod.fst ∧
    (select env q s).2 = (select_with_columns env q s).2 := by
  rcases h : select_with_columns env q s with ⟨r, s1, tr⟩
  cases r <;> simp [select, h, Except.map]

/-- C4: whenever the connection check succeeds, `insert_dataframe` submits
exactly one batched statement, namely
`INSERT INTO schema.table (columns joined by comma-space, in dataframe
order) VALUES %s` with the dataframe rows and the fixed page size 50000
handed to the driver's batching mechanism. -/
theorem insert_dataframe_builds_single_batched_statement (env : Env)
    (df : DataFrame) (table schema : String) (s : PostgresController)
    (h : (_check_and_reconnect env s).1 = .ok ()) :
    batchesIn (insert_dataframe env df table schema s).2.2 = 1 ∧
    Event.batchInsert schema table
      ("INSERT INTO " ++ schema ++ "." ++ table ++ " (" ++
        String.intercalate ", " df.columns ++ ") VALUES %s")
      df.values 50000 ∈ (insert_dataframe env df table schema s).2.2 := by
  rcases hc : _check_and_reconnect env s with ⟨r, s1, tr⟩
  have htr : batchesIn tr = 0 := by
    have := ccr_batches env s; rw [hc] at this; exact this
  cases r with
  | error e => rw [hc] at h; simp at h
  | ok u =>
    rcases he : env.insert ("INSERT INTO " ++ schema ++ "." ++ table ++
        " (" ++ String.intercalate ", " df.columns ++ ") VALUES %s")
        df.values with u2 | e2 <;>
      (refine ⟨?_, ?_⟩ <;>
        simp [insert_dataframe, _split_to_rows_columns, hc, he]) <;>
      (rw [batchesIn_append, htr]; simp [batchesIn, isBatchEvent])

/-- C9: a successful `insert_dataframe` call emits exactly two diagnostic
log lines: the first reports the upper-cased table name, the number of
inserted rows (rendered with Python's `_d` digit grouping, so 120000 rows
appear as `120_000`) and the elapsed seconds of the insert; the second
reports the total elapsed seconds of the whole call. -/
theorem insert_dataframe_logs_two_lines (env : Env) (df : DataFrame)
    (table schema : String) (s : PostgresController)
    (h : (insert_dataframe env df table schema s).1 = .ok ()) :
    logsIn (insert_dataframe env df table schema s).2.2 =
      ["Data inserted in table: \x27" ++ strUpper table ++ "\x27\n" ++
         fmtUnderscore df.values.length ++ " rows inserted\nTime: " ++
         toString env.insertSecs ++ " seconds",
       "Pandas job is finished. Total time: " ++ toString env.totalSecs ++
         " seconds"] := by
  rcases hc : _check_and_reconnect env s with ⟨r, s1, tr⟩
  have htr : logsIn tr = [] := by
    have := ccr_logs env s; rw [hc] at this; exact this
  cases r with
  | error e => simp [insert_dataframe, hc] at h
  | ok u =>
    rcases he : env.insert ("INSERT INTO " ++ schema ++ "." ++ table ++
        " (" ++ String.intercalate ", " df.columns ++ ") VALUES %s")
        df.values with u2 | e2 <;>
      simp [insert_dataframe, _split_to_rows_columns, hc, he] at h ⊢
    rw [logsIn_append, htr]
    simp [logsIn]

/-- C10: in every reachable state, `reconnect_number` is 0 while
`is_reconnect` is false, and more precisely
`reconnect_number + (1 if is_reconnect else 0)` equals the total number of
connection-open attempts performed so far — the counter counts exactly the
openings after the first. -/
theorem reconnect_number_counts_reopens (s : PostgresController) (n : Nat)
    (h : Reachable s n) :
    (s.is_reconnect = false → s.reconnect_number = 0) ∧
      s.reconnect_number + (if s.is_reconnect then 1 else 0) = n := by
  induction h with
  | init host port user password database => simp [mkPostgresController]
  | @step op env s0 n0 hr ih =>
    obtain ⟨body, hb, hob⟩ := runOp_trace op env s0
    have hst := runOp_state op env s0
    have hfl := ccr_flag env s0
    have hct := ccr_count env s0
    have htr : opensIn (runOp op env s0).2.2 =
        if _connection_is_closed s0 then 1 else 0 := by
      rw [hb, opensIn_append, hob, ccr_trace]
      split <;> simp [opensIn, isOpenEvent]
    constructor
    · intro hnew
      rw [hst, hfl] at hnew
      simp at hnew
      rw [hst, hct]
      simp [hnew.1, hnew.2, ih.1 hnew.1]
    · rw [hst, hct, hfl, htr]
      have ih1 := ih.1
      have ih2 := ih.2
      rcases hcl : _connection_is_closed s0 <;> rcases hfo : s0.is_reconnect <;>
        simp [hcl, hfo] at ih2 ⊢ <;> omega
  | @peerClose k s0 n0 hr ih => simpa using ih

theorem isHexDigit_hexDigit (n : Nat) (h : n < 16) :
    isHexDigit (hexDigit n) = true := by
  interval_cases n <;> decide

theorem jsonEscapeChar_ok (c : Char) (rest : List Char)
    (hrest : jsonStringBodyOk rest = true) :
    jsonStringBodyOk (jsonEscapeChar c ++ rest) = true := by
  unfold jsonEscapeChar
  by_cases h1 : c = '"'
  · simp [h1, jsonStringBodyOk, jsonEscSeqOk, simpleEscape, hrest]
  by_cases h2 : c = '\\'
  · simp [h1, h2, jsonStringBodyOk, jsonEscSeqOk, simpleEscape, hrest]
  by_cases h3 : c = '\x08'
  · simp [h1, h2, h3, jsonStringBodyOk, jsonEscSeqOk, simpleEscape, hrest]
  by_cases h4 : c = '\x0c'
  · simp [h1, h2, h3, h4, jsonStringBodyOk, jsonEscSeqOk, simpleEscape, hrest]
  by_cases h5 : c = '\n'
  · simp [h1, h2, h3, h4, h5, jsonStringBodyOk, jsonEscSeqOk, simpleEscape,
      hrest]
  by_cases h6 : c = '\r'
  · simp [h1, h2, h3, h4, h5, h6, jsonStringBodyOk, jsonEscSeqOk,
      simpleEscape, hrest]
  by_cases h7 : c = '\t'
  · simp [h1, h2, h3, h4, h5, h6, h7, jsonStringBodyOk, jsonEscSeqOk,
      simpleEscape, hrest]
  by_cases h8 : c.toNat < 0x20
  · have hhi : c.toNat / 16 < 16 := by omega
    have hlo : c.toNat % 16 < 16 := by omega
    simp [h1, h2, h3, h4, h5, h6, h7, h8, jsonStringBodyOk, jsonEscSeqOk,
      jsonHex4Ok, isHexDigit_hexDigit _ hhi, isHexDigit_hexDigit _ hlo, hrest]
    decide
  · simp [h1, h2, h3, h4, h5, h6, h7, h8, jsonStringBodyOk, plainJsonChar,
      hrest]
    omega

theorem jsonEscapeString_ok (s : String) :
    jsonStringBodyOk (jsonEscapeString s).data = true := by
  show jsonStringBodyOk (s.data.map jsonEscapeChar).flatten = true
  induction s.data with
  | nil => rfl
  | cons c l ih =>
    simp only [List.map_cons, List.flatten_cons]
    exact jsonEscapeChar_ok c _ ih

theorem dumpsDict_eq : ∀ (d : PyDict),
    dumpsDict d = (dumpsDictParts d).map
      (fun p => "\"" ++ p.1 ++ "\": " ++ p.2)
  | .nil => rfl
  | .cons k v t => by
    simp only [dumpsDict, dumpsDictParts, List.map_cons]
    rw [dumpsDict_eq t]

theorem dumpsDictParts_keys : ∀ (d : PyDict),
    ∀ p ∈ dumpsDictParts d, jsonStringBodyOk p.1.data = true
  | .nil => by intro p hp; simp [dumpsDictParts] at hp
  | .cons k v t => by
    intro p hp
    simp only [dumpsDictParts, List.mem_cons] at hp
    rcases hp with h | h
    · rw [h]; exact jsonEscapeString_ok k
    · exact dumpsDictParts_keys t p h

mutual

theorem dumps_IsJson : ∀ (v : PyVal), finiteFloats v = true →
    IsJson (dumps v)
  | .null, _ => IsJson.nullTok
  | .bool true, _ => IsJson.trueTok
  | .bool false, _ => IsJson.falseTok
  | .int n, _ => IsJson.intTok n
  | .float .nan, h => by simp [finiteFloats] at h
  | .float .inf, h => by simp [finiteFloats] at h
  | .float .negInf, h => by simp [finiteFloats] at h
  | .float (.finite neg ip frac ex), _ => IsJson.numTok neg ip frac ex
  | .str s, _ => IsJson.strTok (jsonEscapeString s) (jsonEscapeString_ok s)
  | .list xs, h =>
    IsJson.arrTok (dumpsList xs)
      (dumpsList_IsJson xs (by simpa [finiteFloats] using h))
  | .dict xs, h => by
    have hv := dumpsDictVals_IsJson xs (by simpa [finiteFloats] using h)
    show IsJson ("\x7b" ++ String.intercalate ", " (dumpsDict xs) ++ "\x7d")
    rw [dumpsDict_eq xs]
    exact IsJson.objTok (dumpsDictParts xs) (dumpsDictParts_keys xs) hv

theorem dumpsList_IsJson : ∀ (xs : PyList), finiteFloatsList xs = true →
    ∀ p ∈ dumpsList xs, IsJson p
  | .nil, _ => by intro p hp; simp [dumpsList] at hp
  | .cons v t, h => by
    have hvt : finiteFloats v = true ∧ finiteFloatsList t = true := by
      simpa [finiteFloatsList, Bool.and_eq_true] using h
    have h1 := dumps_IsJson v hvt.1
    have h2 := dumpsList_IsJson t hvt.2
    intro p hp
    simp only [dumpsList, List.mem_cons] at hp
    rcases hp with h3 | h3
    · rw [h3]; exact h1
    · exact h2 p h3

theorem dumpsDictVals_IsJson : ∀ (d : PyDict), finiteFloatsDict d = true →
    ∀ p ∈ dumpsDictParts d, IsJson p.2
  | .nil, _ => by intro p hp; simp [dumpsDictParts] at hp
  | .cons k v t, h => by
    have hvt : finiteFloats v = true ∧ finiteFloatsDict t = true := by
      simpa [finiteFloatsDict, Bool.and_eq_true] using h
    have h1 := dumps_IsJson v hvt.1
    have h2 := dumpsDictVals_IsJson t hvt.2
    intro p hp
    simp only [dumpsDictParts, List.mem_cons] at hp
    rcases hp with h3 | h3
    · rw [h3]; exact h1
    · exact h2 p h3

end

theorem jsonEscapeChar_nonascii (c : Char) (h : 0x80 ≤ c.toNat) :
    jsonEscapeChar c = [c] := by
  have h1 : c ≠ '"' := fun e => by subst e; exact absurd h (by decide)
  have h2 : c ≠ '\\' := fun e => by subst e; exact absurd h (by decide)
  have h3 : c ≠ '\x08' := fun e => by subst e; exact absurd h (by decide)
  have h4 : c ≠ '\x0c' := fun e => by subst e; exact absurd h (by decide)
  have h5 : c ≠ '\n' := fun e => by subst e; exact absurd h (by decide)
  have h6 : c ≠ '\r' := fun e => by subst e; exact absurd h (by decide)
  have h7 : c ≠ '\t' := fun e => by subst e; exact absurd h (by decide)
  have h8 : ¬c.toNat < 0x20 := by omega
  simp [jsonEscapeChar, h1, h2, h3, h4, h5, h6, h7, h8]

theorem digitChar_isDigit (n : Nat) (h : n < 10) :
    (Nat.digitChar n).isDigit = true := by
  interval_cases n <;> decide

theorem toDigitsCore_digits (fuel : Nat) :
    ∀ (n : Nat) (ds : List Char), (∀ c ∈ ds, c.isDigit = true) →
      ∀ c ∈ Nat.toDigitsCore 10 fuel n ds, c.isDigit = true := by
  induction fuel with
  | zero => intro n ds hds c hc; exact hds c hc
  | succ fuel ih =>
    intro n ds hds c hc
    simp only [Nat.toDigitsCore] at hc
    by_cases h0 : n / 10 = 0
    · rw [if_pos h0] at hc
      rcases List.mem_cons.mp hc with h | h
      · subst h; exact digitChar_isDigit _ (Nat.mod_lt _ (by decide))
      · exact hds c h
    · rw [if_neg h0] at hc
      refine ih (n / 10) _ ?_ c hc
      intro x hx
      rcases List.mem_cons.mp hx with h | h
      · subst h; exact digitChar_isDigit _ (Nat.mod_lt _ (by decide))
      · exact hds x h

theorem natRepr_digits (m : Nat) :
    ∀ c ∈ (Nat.repr m).data, c.isDigit = true := by
  intro c hc
  exact toDigitsCore_digits (m + 1) m [] (by intro x hx; simp at hx) c hc

theorem intToString_chars (n : Int) :
    ∀ c ∈ (toString n).data, c = '-' ∨ c.isDigit = true := by
  cases n with
  | ofNat m =>
    intro c hc
    exact Or.inr (natRepr_digits m c hc)
  | negSucc m =>
    intro c hc
    have hd : (toString (Int.negSucc m)).data =
        '-' :: (Nat.repr (m + 1)).data := by
      show ("-" ++ toString (m + 1)).data = _
      rw [String.data_append]
      rfl
    rw [hd] at hc
    rcases List.mem_cons.mp hc with h | h
    · exact Or.inl h
    · exact Or.inr (natRepr_digits (m + 1) c h)

theorem intPartText_head (ip : IntPartText) :
    ∃ c rest, ip.chars = c :: rest ∧ c.isDigit = true := by
  cases ip with
  | zero => exact ⟨'0', [], rfl, by decide⟩
  | pos f rest =>
    exact ⟨Nat.digitChar (f.val + 1), _, rfl,
      digitChar_isDigit _ (by have := f.isLt; omega)⟩

theorem renderNumber_false_head (ip : IntPartText) (frac : List (Fin 10))
    (ex : Option (Bool × Fin 10 × List (Fin 10))) :
    ∃ c rest, (renderNumber false ip frac ex).data = c :: rest ∧
      c.isDigit = true := by
  obtain ⟨c, r, hch, hdg⟩ := intPartText_head ip
  refine ⟨c, r ++ fracChars frac ++ expChars ex, ?_, hdg⟩
  simp [renderNumber, hch]

theorem renderNumber_true_data (ip : IntPartText) (frac : List (Fin 10))
    (ex : Option (Bool × Fin 10 × List (Fin 10))) :
    ∃ c rest, (renderNumber true ip frac ex).data = '-' :: c :: rest ∧
      c.isDigit = true := by
  obtain ⟨c, r, hch, hdg⟩ := intPartText_head ip
  refine ⟨c, r ++ fracChars frac ++ expChars ex, ?_, hdg⟩
  simp [renderNumber, hch]

set_option maxHeartbeats 1000000 in
theorem isJson_inv (s : String) (h : IsJson s) :
    s = "null" ∨ s = "true" ∨ s = "false" ∨ (∃ n : Int, s = toString n) ∨
      (∃ neg ip frac ex, s = renderNumber neg ip frac ex) ∨
      (∃ b, s = "\"" ++ b ++ "\"") ∨ (∃ p, s = "[" ++ p ++ "]") ∨
      (∃ p, s = "\x7b" ++ p ++ "\x7d") := by
  cases h with
  | nullTok => exact Or.inl rfl
  | trueTok => exact Or.inr (Or.inl rfl)
  | falseTok => exact Or.inr (Or.inr (Or.inl rfl))
  | intTok n => exact Or.inr (Or.inr (Or.inr (Or.inl ⟨n, rfl⟩)))
  | numTok neg ip frac ex =>
    exact Or.inr (Or.inr (Or.inr (Or.inr (Or.inl ⟨neg, ip, frac, ex, rfl⟩))))
  | strTok body hb =>
    exact Or.inr (Or.inr (Or.inr (Or.inr (Or.inr (Or.inl ⟨body, rfl⟩)))))
  | arrTok parts hp =>
    exact Or.inr (Or.inr (Or.inr (Or.inr (Or.inr (Or.inr (Or.inl
      ⟨String.intercalate ", " parts, rfl⟩))))))
  | objTok parts h1 h2 =>
    exact Or.inr (Or.inr (Or.inr (Or.inr (Or.inr (Or.inr (Or.inr
      ⟨String.intercalate ", "
        (parts.map fun p => "\"" ++ p.1 ++ "\": " ++ p.2), rfl⟩))))))

theorem not_isJson_NaN : ¬IsJson "NaN" := by
  intro h
  rcases isJson_inv _ h with h | h | h | ⟨n, h⟩ | ⟨neg, ip, frac, ex, h⟩ |
    ⟨b, h⟩ | ⟨p, h⟩ | ⟨p, h⟩
  · exact absurd h (by decide)
  · exact absurd h (by decide)
  · exact absurd h (by decide)
  · have h2 := intToString_chars n 'N' (by rw [← h]; decide)
    rcases h2 with h2 | h2 <;> exact absurd h2 (by decide)
  · cases neg with
    | false =>
      obtain ⟨c, rest, hd, hdg⟩ := renderNumber_false_head ip frac ex
      rw [← h] at hd
      have h3 : ('N' :: 'a' :: 'N' :: [] : List Char) = c :: rest := hd
      injection h3 with h4 h5
      rw [← h4] at hdg
      exact absurd hdg (by decide)
    | true =>
      obtain ⟨c, rest, hd, hdg⟩ := renderNumber_true_data ip frac ex
      rw [← h] at hd
      have h3 : ('N' :: 'a' :: 'N' :: [] : List Char) = '-' :: c :: rest :=
        hd
      injection h3 with h4 h5
      exact absurd h4 (by decide)
  · have h3 : ('N' :: 'a' :: 'N' :: [] : List Char) =
        '"' :: (b.data ++ ['"']) := by
      have hd := congrArg String.data h
      rw [String.data_append, String.data_append] at hd
      exact hd
    injection h3 with h4 h5
    exact absurd h4 (by decide)
  · have h3 : ('N' :: 'a' :: 'N' :: [] : List Char) =
        '[' :: (p.data ++ [']']) := by
      have hd := congrArg String.data h
      rw [String.data_append, String.data_append] at hd
      exact hd
    injection h3 with h4 h5
    exact absurd h4 (by decide)
  · have h3 : ('N' :: 'a' :: 'N' :: [] : List Char) =
        '\x7b' :: (p.data ++ ['\x7d']) := by
      have hd := congrArg String.data h
      rw [String.data_append, String.data_append] at hd
      exact hd
    injection h3 with h4 h5
    exact absurd h4 (by decide)

theorem not_isJson_Infinity : ¬IsJson "Infinity" := by
  intro h
  rcases isJson_inv _ h with h | h | h | ⟨n, h⟩ | ⟨neg, ip, frac, ex, h⟩ |
    ⟨b, h⟩ | ⟨p, h⟩ | ⟨p, h⟩
  · exact absurd h (by decide)
  · exact absurd h (by decide)
  · exact absurd h (by decide)
  · have h2 := intToString_chars n 'I' (by rw [← h]; decide)
    rcases h2 with h2 | h2 <;> exact absurd h2 (by decide)
  · cases neg with
    | false =>
      obtain ⟨c, rest, hd, hdg⟩ := renderNumber_false_head ip frac ex
      rw [← h] at hd
      have h3 : ('I' :: 'n' :: 'f' :: 'i' :: 'n' :: 'i' :: 't' :: 'y' ::
          [] : List Char) = c :: rest := hd
      injection h3 with h4 h5
      rw [← h4] at hdg
      exact absurd hdg (by decide)
    | true =>
      obtain ⟨c, rest, hd, hdg⟩ := renderNumber_true_data ip frac ex
      rw [← h] at hd
      have h3 : ('I' :: 'n' :: 'f' :: 'i' :: 'n' :: 'i' :: 't' :: 'y' ::
          [] : List Char) = '-' :: c :: rest := hd
      injection h3 with h4 h5
      exact absurd h4 (by decide)
  · have h3 : ('I' :: 'n' :: 'f' :: 'i' :: 'n' :: 'i' :: 't' :: 'y' ::
        [] : List Char) = '"' :: (b.data ++ ['"']) := by
      have hd := congrArg String.data h
      rw [String.data_append, String.data_append] at hd
      exact hd
    injection h3 with h4 h5
    exact absurd h4 (by decide)
  · have h3 : ('I' :: 'n' :: 'f' :: 'i' :: 'n' :: 'i' :: 't' :: 'y' ::
        [] : List Char) = '[' :: (p.data ++ [']']) := by
      have hd := congrArg String.data h
      rw [String.data_append, String.data_append] at hd
      exact hd
    injection h3 with h4 h5
    exact absurd h4 (by decide)
  · have h3 : ('I' :: 'n' :: 'f' :: 'i' :: 'n' :: 'i' :: 't' :: 'y' ::
        [] : List Char) = '\x7b' :: (p.data ++ ['\x7d']) := by
      have hd := congrArg String.data h
      rw [String.data_append, String.data_append] at hd
      exact hd
    injection h3 with h4 h5
    exact absurd h4 (by decide)

theorem not_isJson_negInfinity : ¬IsJson "-Infinity" := by
  intro h
  rcases isJson_inv _ h with h | h | h | ⟨n, h⟩ | ⟨neg, ip, frac, ex, h⟩ |
    ⟨b, h⟩ | ⟨p, h⟩ | ⟨p, h⟩
  · exact absurd h (by decide)
  · exact absurd h (by decide)
  · exact absurd h (by decide)
  · have h2 := intToString_chars n 'I' (by rw [← h]; decide)
    rcases h2 with h2 | h2 <;> exact absurd h2 (by decide)
  · cases neg with
    | false =>
      obtain ⟨c, rest, hd, hdg⟩ := renderNumber_false_head ip frac ex
      rw [← h] at hd
      have h3 : ('-' :: 'I' :: 'n' :: 'f' :: 'i' :: 'n' :: 'i' :: 't' ::
          'y' :: [] : List Char) = c :: rest := hd
      injection h3 with h4 h5
      rw [← h4] at hdg
      exact absurd hdg (by decide)
    | true =>
      obtain ⟨c, rest, hd, hdg⟩ := renderNumber_true_data ip frac ex
      rw [← h] at hd
      have h3 : ('-' :: 'I' :: 'n' :: 'f' :: 'i' :: 'n' :: 'i' :: 't' ::
          'y' :: [] : List Char) = '-' :: c :: rest := hd
      injection h3 with h4 h5
      injection h5 with h6 h7
      rw [← h6] at hdg
      exact absurd hdg (by decide)
  · have h3 : ('-' :: 'I' :: 'n' :: 'f' :: 'i' :: 'n' :: 'i' :: 't' ::
        'y' :: [] : List Char) = '"' :: (b.data ++ ['"']) := by
      have hd := congrArg String.data h
      rw [String.data_append, String.data_append] at hd
      exact hd
    injection h3 with h4 h5
    exact absurd h4 (by decide)
  · have h3 : ('-' :: 'I' :: 'n' :: 'f' :: 'i' :: 'n' :: 'i' :: 't' ::
        'y' :: [] : List Char) = '[' :: (p.data ++ [']']) := by
      have hd := congrArg String.data h
      rw [String.data_append, String.data_append] at hd
      exact hd
    injection h3 with h4 h5
    exact absurd h4 (by decide)
  · have h3 : ('-' :: 'I' :: 'n' :: 'f' :: 'i' :: 'n' :: 'i' :: 't' ::
        'y' :: [] : List Char) = '\x7b' :: (p.data ++ ['\x7d']) := by
      have hd := congrArg String.data h
      rw [String.data_append, String.data_append] at hd
      exact hd
    injection h3 with h4 h5
    exact absurd h4 (by decide)

/-- C5 counterexample: the non-finite floats are in the helper's domain
(NaN is pandas' missing-value marker), and `json.dumps` with its default
`allow_nan=True` emits for them the bare literals `NaN`, `Infinity` and
`-Infinity` — text no RFC 8259 production yields, so "for every input
value the helper produces valid JSON text" is false of the program. -/
theorem cast_dict_to_json_nonfinite_counterexample :
    cast_dict_to_json (PyVal.float PyFloat.nan) = "NaN" ∧ ¬IsJson "NaN" ∧
    cast_dict_to_json (PyVal.float PyFloat.inf) = "Infinity" ∧
      ¬IsJson "Infinity" ∧
    cast_dict_to_json (PyVal.float PyFloat.negInf) = "-Infinity" ∧
      ¬IsJson "-Infinity" :=
  ⟨rfl, not_isJson_NaN, rfl, not_isJson_Infinity, rfl,
    not_isJson_negInfinity⟩

/-- C5 (amended): serializing the nested value with one key `"user"`
mapped to the list `[11540]` yields exactly the text with that key quoted
and the list rendered in brackets; for every serializable value containing
no non-finite float, the helper's output is valid JSON text (member of the
RFC 8259 subgrammar `IsJson`); and the escaping step maps every non-ASCII
character to itself, so non-ASCII characters are preserved unescaped.  The
unrestricted universal fails exactly on the non-finite floats, which
serialize to the non-JSON literals `NaN` / `Infinity` / `-Infinity`. -/
theorem cast_dict_to_json_spec :
    cast_dict_to_json (PyVal.dict (.cons "user"
        (.list (.cons (.int 11540) .nil)) .nil)) =
      "\x7b\"user\": [11540]\x7d" ∧
    (∀ v : PyVal, finiteFloats v = true → IsJson (cast_dict_to_json v)) ∧
    (∀ c : Char, 0x80 ≤ c.toNat → jsonEscapeChar c = [c]) :=
  ⟨by decide, fun v hv => dumps_IsJson v hv,
    fun c h => jsonEscapeChar_nonascii c h⟩

/-- Witness for C1 at a fresh controller and a concrete operation. -/
theorem first_call_single_open_sets_flag_witness :
    opensIn (runOp (.execute "CREATE TABLE t (a int)") envOk
        ctrlFresh).2.2 = 1 ∧
      (runOp (.execute "CREATE TABLE t (a int)") envOk
        ctrlFresh).2.1.is_reconnect = true ∧
      (runOp (.execute "CREATE TABLE t (a int)") envOk
        ctrlFresh).2.1.reconnect_number = 0 :=
  first_call_single_open_sets_flag _ envOk ctrlFresh rfl rfl rfl

/-- Witness for C2 at a controller that reconnected before and lost its
handle. -/
theorem closed_connection_single_reconnect_increment_witness :
    opensIn (runOp (.select "SELECT 1") envOk ctrlSeen).2.2 = 1 ∧
      (runOp (.select "SELECT 1") envOk ctrlSeen).2.1.reconnect_number =
        ctrlSeen.reconnect_number + 1 :=
  (closed_connection_single_reconnect_increment _ envOk ctrlSeen rfl).1 rfl

/-- Witness for C3 at a failing bulk insert. -/
theorem errors_propagate_untranslated_rollback_witness :
    envRaised envInsFail (.insertErr "bad column") ∧
      applyEvents db0 (runOp (.insertDataframe dfSmall "t" "public")
        envInsFail ctrlFresh).2.2 = db0 :=
  errors_propagate_untranslated_rollback _ envInsFail ctrlFresh db0 _ rfl

/-- Witness for C4 at a concrete dataframe and table. -/
theorem insert_dataframe_builds_single_batched_statement_witness :
    batchesIn (insert_dataframe envOk dfSmall "t" "public"
        ctrlFresh).2.2 = 1 ∧
    Event.batchInsert "public" "t"
      ("INSERT INTO " ++ "public" ++ "." ++ "t" ++ " (" ++
        String.intercalate ", " dfSmall.columns ++ ") VALUES %s")
      dfSmall.values 50000 ∈
      (insert_dataframe envOk dfSmall "t" "public" ctrlFresh).2.2 :=
  insert_dataframe_builds_single_batched_statement envOk dfSmall "t"
    "public" ctrlFresh rfl

/-- Witness for C5 at a string holding a non-ASCII character. -/
theorem cast_dict_to_json_spec_witness :
    IsJson (cast_dict_to_json (PyVal.str "héllo")) ∧
      jsonEscapeChar 'é' = ['é'] :=
  ⟨cast_dict_to_json_spec.2.1 _ (by decide),
    cast_dict_to_json_spec.2.2 'é' (by decide)⟩

/-- Witness for C6 at a failing reconnect. -/
theorem at_most_one_reconnect_attempt_no_retry_witness :
    (runOp (.select "SELECT 1") envConnFail ctrlFresh).1 =
        .error (.connErr "refused") ∧
      (runOp (.select "SELECT 1") envConnFail ctrlFresh).2.2 =
        [Event.openAttempt] :=
  (at_most_one_reconnect_attempt_no_retry _ envConnFail ctrlFresh).2 _
    rfl rfl

/-- Witness for C7: the open attempt of a first call happens because the
handle was absent. -/
theorem single_handle_invariant_witness :
    _connection_is_closed ctrlFresh = true :=
  (single_handle_invariant (.execute "X") envOk ctrlFresh).2.1 (by decide)

/-- Witness for C9 at a 120000-row dataframe: the first line names the
upper-cased table and reports the 120000 rows as `120_000`. -/
theorem insert_dataframe_logs_two_lines_witness :
    logsIn (insert_dataframe envOk df120k "events" "public"
        ctrlFresh).2.2 =
      ["Data inserted in table: \x27EVENTS\x27\n120_000 rows " ++
         "inserted\nTime: 0 seconds",
       "Pandas job is finished. Total time: 0 seconds"] := by
  have h := insert_dataframe_logs_two_lines envOk df120k "events"
    "public" ctrlFresh rfl
  rw [h]
  simp only [df120k, List.length_replicate]
  decide

/-- Witness for C10 after one operation on a fresh controller. -/
theorem reconnect_number_counts_reopens_witness :
    ((runOp (.execute "X") envOk ctrlFresh).2.1.is_reconnect = false →
      (runOp (.execute "X") envOk ctrlFresh).2.1.reconnect_number = 0) ∧
      (runOp (.execute "X") envOk ctrlFresh).2.1.reconnect_number +
        (if (runOp (.execute "X") envOk ctrlFresh).2.1.is_reconnect
          then 1 else 0) =
        0 + opensIn (runOp (.execute "X") envOk ctrlFresh).2.2 :=
  reconnect_number_counts_reopens _ _
    (Reachable.step (.execute "X") envOk
      (Reachable.init (.str "localhost") 5432 "u" "p" "db"))
